import Mathlib

/-!
Verification of the child-healthcare monitoring pipeline (src/app.py):
ingestion of a multi-sheet workbook (load_data), per-record scoring
(calculate_score), classification (get_classification) and the
per-indicator conformity rate. Cells are modelled as optional values
(none models a pandas NaN/NaT); a sheet is its name together with its
grid of cells; the workbook-level error paths of load_data (missing
file, zero sheets, structural read failure) are modelled as source
constructors, since file IO and the spreadsheet parser are external
to the repository.
-/

/-- Value held in a non-empty spreadsheet cell: a string, or an
already-typed calendar date (encoded as a single natural number). -/
inductive Value where
  | str (s : String)
  | date (d : Nat)
deriving DecidableEq

/-- Cell of a data frame: `none` models pandas NaN/NaT. -/
abbrev Cell := Option Value

/-- Normalized record, one per data row. The first 15 fields are the
canonical schema (column_names in load_data, src/app.py lines 28-33),
in order; unidade is the derived unit tag added at line 54. -/
structure Record where
  nome : Cell
  dn : Cell
  data1Puericultura : Cell
  dias1Puericultura : Cell
  a : Cell
  qtdPuericultura : Cell
  b : Cell
  qtdPesoAltura : Cell
  c : Cell
  data1VisitaACS : Cell
  dias1VisitaACS : Cell
  data2VisitaACS : Cell
  dias2VisitaACS : Cell
  d : Cell
  e : Cell
  unidade : String
deriving DecidableEq

/-- One sheet of the workbook: its name, its column count, and its data
rows (the 3 skipped preamble rows and the header row of
pd.read_excel(..., skiprows=3, header=0) are already removed, as they
never surface as data). A cell beyond a row's length reads as empty. -/
structure Sheet where
  name : String
  ncols : Nat
  rows : List (List Cell)
deriving DecidableEq

/-- Model of Python str.strip (applied to the sheet name at
src/app.py line 54): remove leading and trailing whitespace. -/
def strip (s : String) : String :=
  ⟨((s.data.dropWhile Char.isWhitespace).reverse.dropWhile Char.isWhitespace).reverse⟩

/-- Split of a character list at every occurrence of a separator
(used to model date-string parsing below). -/
def splitFields (sep : Char) : List Char → List (List Char)
  | [] => [[]]
  | ch :: rest =>
    if ch = sep then [] :: splitFields sep rest
    else
      match splitFields sep rest with
      | [] => [[ch]]
      | f :: fs => (ch :: f) :: fs

/-- Numeric reading of a character list: all digits and non-empty. -/
def digitsToNat? (cs : List Char) : Option Nat :=
  if cs ≠ [] ∧ cs.all Char.isDigit then
    some (cs.foldl (fun n ch => n * 10 + (ch.toNat - 48)) 0)
  else none

/-- Cell of row r at column index j (empty when absent). -/
def cellAt (r : List Cell) (j : Nat) : Cell := r.getD j none

/-- Indices of the columns that survive df.dropna(axis=1, how='all')
at src/app.py line 47: a column is kept iff some row has a value there. -/
def keptCols (s : Sheet) : List Nat :=
  (List.range s.ncols).filter (fun j => s.rows.any (fun r => (cellAt r j).isSome))

/-- Projection of a row onto a list of column indices (df.iloc[:, :15]
after the empty columns were dropped). -/
def projectRow (cols : List Nat) (r : List Cell) : List Cell :=
  cols.map (fun j => cellAt r j)

/-- Positional assignment of the canonical field names to the 15 kept
cells of a row, plus the unit tag (src/app.py lines 51-54). -/
def mkRecord (unit : String) (cs : List Cell) : Record :=
  { nome := cs.getD 0 none
    dn := cs.getD 1 none
    data1Puericultura := cs.getD 2 none
    dias1Puericultura := cs.getD 3 none
    a := cs.getD 4 none
    qtdPuericultura := cs.getD 5 none
    b := cs.getD 6 none
    qtdPesoAltura := cs.getD 7 none
    c := cs.getD 8 none
    data1VisitaACS := cs.getD 9 none
    dias1VisitaACS := cs.getD 10 none
    data2VisitaACS := cs.getD 11 none
    dias2VisitaACS := cs.getD 12 none
    d := cs.getD 13 none
    e := cs.getD 14 none
    unidade := unit }

/-- Per-sheet body of the load_data loop (src/app.py lines 45-57): drop
the all-empty columns; if fewer than 15 columns remain the sheet is
rejected (none); otherwise keep the first 15 remaining columns, name
them positionally and tag every row with the trimmed sheet name. -/
def processSheet (s : Sheet) : Option (List Record) :=
  if 15 ≤ (keptCols s).length then
    some (s.rows.map (fun r => mkRecord (strip s.name) (projectRow ((keptCols s).take 15) r)))
  else
    none

/-- Diagnostics surfaced by load_data via st.error / st.warning. -/
inductive Diag where
  | fileNotFound
  | emptyWorkbook
  | readError
  | sheetSkipped (name : String)
deriving DecidableEq

/-- Input to load_data. File existence (os.path.exists) and the
spreadsheet parser (pd.read_excel) are external, so the source is
either a missing file, a file whose structural parse raises, or a
successfully parsed workbook given as its ordered sheet list. -/
inductive Source where
  | missing
  | readFailure
  | workbook (sheets : List Sheet)
deriving DecidableEq

/-- Loop over the sheets (src/app.py lines 45-57), accumulating the
accepted per-sheet record lists in sheet order and one skipped-sheet
warning per rejected sheet, in sheet order. -/
def processAll : List Sheet → List (List Record) × List Diag
  | [] => ([], [])
  | s :: rest =>
    match processSheet s with
    | some recs => ((processAll rest).1.cons recs, (processAll rest).2)
    | none => ((processAll rest).1, (processAll rest).2.cons (Diag.sheetSkipped s.name))

/-- Predicate of combined_df.dropna(subset=['Nome', 'DN']) at
src/app.py line 69: a row survives iff both cells are non-null. -/
def requiredPresent (r : Record) : Bool :=
  r.nome.isSome && r.dn.isSome

/-- Minimal model of the string parsing done by
pd.to_datetime(..., errors='coerce') (an external pandas routine):
an ISO year-month-day string with a plausible month and day parses,
anything else fails. Only the parse/no-parse split matters here. -/
def parseDateString (s : String) : Option Nat :=
  match splitFields '-' s.data with
  | [ys, ms, dss] =>
    match digitsToNat? ys, digitsToNat? ms, digitsToNat? dss with
    | some y, some m, some dd =>
      if 1 ≤ m ∧ m ≤ 12 ∧ 1 ≤ dd ∧ dd ≤ 31 then some (y * 10000 + m * 100 + dd)
      else none
    | _, _, _ => none
  | _ => none

/-- Coercion of one DN cell by pd.to_datetime(..., errors='coerce')
(src/app.py line 70): an empty cell stays empty, a date stays itself,
and a string becomes a date when it parses and null (NaT) otherwise. -/
def parseDN (c : Cell) : Cell :=
  match c with
  | none => none
  | some (Value.date dd) => some (Value.date dd)
  | some (Value.str s) =>
    match parseDateString s with
    | some dd => some (Value.date dd)
    | none => none

/-- Application of the DN coercion to a record (line 70 rewrites only
the DN column of combined_df). -/
def coerceDN (r : Record) : Record :=
  { r with dn := parseDN r.dn }

/-- The load_data function (src/app.py lines 16-72). Returns the None
sentinel for a missing file, a structural read failure, a workbook
with zero sheets, or a workbook in which no sheet was accepted;
otherwise concatenates the accepted sheets, drops rows lacking Nome
or DN, coerces DN, and returns the rows. The second component holds
the diagnostics emitted along the way. -/
def load_data (src : Source) : Option (List Record) × List Diag :=
  match src with
  | Source.missing => (none, [Diag.fileNotFound])
  | Source.readFailure => (none, [Diag.readError])
  | Source.workbook sheets =>
    if sheets.isEmpty then (none, [Diag.emptyWorkbook])
    else if (processAll sheets).1.isEmpty then (none, (processAll sheets).2)
    else
      (some ((((processAll sheets).1.flatten).filter requiredPresent).map coerceDN),
        (processAll sheets).2)

/-- Indicator lookup row[ind] for ind in the indicadores list of
calculate_score (src/app.py line 80). -/
def indValue (r : Record) (ind : String) : Cell :=
  if ind = "A" then r.a
  else if ind = "B" then r.b
  else if ind = "C" then r.c
  else if ind = "D" then r.d
  else if ind = "E" then r.e
  else none

/-- The calculate_score function (src/app.py lines 74-84): 20 points
per indicator cell equal to the exact string OK. -/
def calculate_score (r : Record) : Nat :=
  ["A", "B", "C", "D", "E"].foldl
    (fun score ind => if indValue r ind = some (Value.str "OK") then score + 20 else score) 0

/-- The get_classification function (src/app.py lines 86-97), with the
chained comparisons of Python rendered as conjunctions. -/
def get_classification (score : ℤ) : String :=
  if 75 < score ∧ score ≤ 100 then "Ótimo"
  else if 50 < score ∧ score ≤ 75 then "Bom"
  else if 25 < score ∧ score ≤ 50 then "Suficiente"
  else "Regular"

/-- Number of records among rs whose indicator ind equals OK exactly
(the ok_count of src/app.py line 201). -/
def okCountIn (rs : List Record) (ind : String) : Nat :=
  rs.countP (fun r => indValue r ind = some (Value.str "OK"))

/-- Number of records among rs whose indicator ind is non-null
(the total_count of src/app.py line 202). -/
def totalCountIn (rs : List Record) (ind : String) : Nat :=
  rs.countP (fun r => (indValue r ind).isSome)

/-- Per-indicator conformity rate (src/app.py line 203):
(ok_count / total_count) * 100 when total_count > 0, else 0. -/
def complianceRate (rs : List Record) (ind : String) : ℚ :=
  if 0 < totalCountIn rs ind then
    ((okCountIn rs ind : ℚ) / (totalCountIn rs ind : ℚ)) * 100
  else 0

/-- Count of the five indicator fields of one record that equal OK
exactly (the specification form of the score). -/
def okFieldCount (r : Record) : Nat :=
  [r.a, r.b, r.c, r.d, r.e].countP (fun c => c = some (Value.str "OK"))

/-- Fixture: a full data row (all 15 cells present) whose Nome is Maria
and whose DN cell holds a string no date parser accepts. -/
def mariaRow : List Cell :=
  [some (Value.str "Maria"), some (Value.str "garbage")] ++
    List.replicate 13 (some (Value.str "x"))

/-- Fixture: a single-sheet workbook holding only the Maria row. -/
def mariaSheet : Sheet := ⟨"U", 15, [mariaRow]⟩

/-- Fixture: the record load_data produces for the Maria row. -/
def mariaOut : Record := coerceDN (mkRecord "U" mariaRow)

/-- Fixture: a sheet with only 10 non-empty columns, below the fixed
schema width of 15. -/
def smallSheet : Sheet := ⟨"Small", 10, [List.replicate 10 (some (Value.str "x"))]⟩

/-- Fixture: a row with Nome present but DN absent. -/
def noDNRow : List Cell :=
  [some (Value.str "Ana"), none] ++ List.replicate 13 (some (Value.str "x"))

/-- Fixture: a row with DN present but Nome absent. -/
def noNomeRow : List Cell :=
  [none, some (Value.str "x")] ++ List.replicate 13 none

/-- Fixture: an accepted sheet (15 non-empty columns across its two
rows) in which every row fails the required-field filter. -/
def filteredAllSheet : Sheet := ⟨"F", 15, [noDNRow, noNomeRow]⟩

/-- Fixture: a full row used for the unit-tag example. -/
def clinicRow : List Cell := List.replicate 15 (some (Value.str "x"))

/-- Fixture: a single-sheet workbook whose sheet name carries padding
whitespace. -/
def clinicSheet : Sheet := ⟨" Clinic A ", 15, [clinicRow]⟩

/-- Fixture: the record produced from the clinic sheet. -/
def clinicOut : Record := mkRecord "Clinic A" clinicRow

/-- Fixture: a record whose indicator B is null. -/
def nullBRec : Record :=
  mkRecord "U"
    [some (Value.str "x"), some (Value.date 1), some (Value.str "x"),
     some (Value.str "x"), some (Value.str "x"), some (Value.str "x"), none,
     some (Value.str "x"), some (Value.str "x"), some (Value.str "x"),
     some (Value.str "x"), some (Value.str "x"), some (Value.str "x"),
     some (Value.str "x"), some (Value.str "x")]

/-- Fixture: three records in which indicator B is null throughout. -/
def threeNullB : List Record := List.replicate 3 nullBRec

/-- Fixture: a record whose indicator B is exactly OK. -/
def okBRec : Record := { nullBRec with b := some (Value.str "OK") }

/-- Fixture: okBRec with name, birth date and unit changed and the five
indicators untouched. -/
def renamedOkBRec : Record :=
  { okBRec with nome := some (Value.str "Outro"), dn := none, unidade := "V" }

lemma processAll_fst (sheets : List Sheet) :
    (processAll sheets).1 = sheets.filterMap processSheet := by
  induction sheets with
  | nil => rfl
  | cons s rest ih =>
    simp only [processAll, List.filterMap_cons]
    cases h : processSheet s with
    | none => simp [h, ih]
    | some recs => simp [h, ih]

lemma processAll_snd (sheets : List Sheet) :
    (processAll sheets).2 =
      (sheets.filter (fun t => (processSheet t).isNone)).map
        (fun t => Diag.sheetSkipped t.name) := by
  induction sheets with
  | nil => rfl
  | cons s rest ih =>
    simp only [processAll, List.filter_cons]
    cases h : processSheet s with
    | none => simp [h, ih]
    | some recs => simp [h, ih]

lemma load_data_workbook_some (sheets : List Sheet)
    (h : sheets.filterMap processSheet ≠ []) :
    load_data (Source.workbook sheets) =
      (some ((((sheets.filterMap processSheet).flatten).filter requiredPresent).map coerceDN),
        (processAll sheets).2) := by
  have hne : sheets ≠ [] := by
    intro e
    subst e
    exact h rfl
  have h1 : sheets.isEmpty = false := by
    cases sheets with
    | nil => exact absurd rfl hne
    | cons a l => rfl
  have h2 : (processAll sheets).1.isEmpty = false := by
    rw [processAll_fst]
    cases hh : sheets.filterMap processSheet with
    | nil => exact absurd hh h
    | cons a l => rfl
  simp [load_data, h1, h2, processAll_fst]
  by_contra hc
  push_neg at hc
  exact h (List.filterMap_eq_nil_iff.mpr hc)

lemma load_data_rows_char (sheets : List Sheet) (rs : List Record) (ws : List Diag)
    (h : load_data (Source.workbook sheets) = (some rs, ws)) :
    rs = (((sheets.filterMap processSheet).flatten).filter requiredPresent).map coerceDN := by
  by_cases hfm : sheets.filterMap processSheet = []
  · exfalso
    by_cases h1 : sheets.isEmpty
    · simp [load_data, h1] at h
    · have h2 : (processAll sheets).1.isEmpty = true := by
        rw [processAll_fst, hfm]
        rfl
      simp [load_data, h1, h2] at h
  · have hw := load_data_workbook_some sheets hfm
    rw [hw] at h
    have h4 := congrArg Prod.fst h
    simp only [Option.some.injEq] at h4
    exact h4.symm

/-- C1: for every record the derived score equals 20 times the number of
the five indicator fields whose value is exactly the string OK, and the
score is always one of 0, 20, 40, 60, 80, 100. -/
theorem score_twenty_per_ok (r : Record) :
    calculate_score r = 20 * okFieldCount r ∧
    calculate_score r ∈ [0, 20, 40, 60, 80, 100] := by
  simp only [calculate_score, okFieldCount, indValue, List.foldl, List.countP,
    List.countP.go]
  norm_num
  by_cases hA : r.a = some (Value.str "OK") <;>
    by_cases hB : r.b = some (Value.str "OK") <;>
    by_cases hC : r.c = some (Value.str "OK") <;>
    by_cases hD : r.d = some (Value.str "OK") <;>
    by_cases hE : r.e = some (Value.str "OK") <;>
    simp [hA, hB, hC, hD, hE]

/-- C1 witness: evaluation at a record with exactly three OK fields. -/
theorem score_twenty_per_ok_witness :
    calculate_score okBRec = 20 * okFieldCount okBRec ∧
    calculate_score okBRec ∈ [0, 20, 40, 60, 80, 100] :=
  score_twenty_per_ok okBRec

/-- C2: get_classification is a pure total function of the score with
intervals exclusive on the lower side, and the quoted boundary values
classify as stated. -/
theorem classification_boundaries (s : ℤ) :
    (75 < s → s ≤ 100 → get_classification s = "Ótimo") ∧
    (50 < s → s ≤ 75 → get_classification s = "Bom") ∧
    (25 < s → s ≤ 50 → get_classification s = "Suficiente") ∧
    (s ≤ 25 → get_classification s = "Regular") ∧
    get_classification 76 = "Ótimo" ∧
    get_classification 75 = "Bom" ∧
    get_classification 50 = "Suficiente" ∧
    get_classification 25 = "Regular" ∧
    get_classification 0 = "Regular" := by
  refine ⟨?_, ?_, ?_, ?_, by decide, by decide, by decide, by decide, by decide⟩
  · intro h1 h2
    rw [get_classification, if_pos ⟨h1, h2⟩]
  · intro h1 h2
    rw [get_classification, if_neg (by omega), if_pos ⟨h1, h2⟩]
  · intro h1 h2
    rw [get_classification, if_neg (by omega), if_neg (by omega), if_pos ⟨h1, h2⟩]
  · intro h1
    rw [get_classification, if_neg (by omega), if_neg (by omega), if_neg (by omega)]

/-- C2 witness: each interval case applied at a concrete score. -/
theorem classification_boundaries_witness :
    get_classification 80 = "Ótimo" ∧ get_classification 60 = "Bom" ∧
    get_classification 40 = "Suficiente" ∧ get_classification 20 = "Regular" :=
  ⟨(classification_boundaries 80).1 (by decide) (by decide),
   (classification_boundaries 60).2.1 (by decide) (by decide),
   (classification_boundaries 40).2.2.1 (by decide) (by decide),
   (classification_boundaries 20).2.2.2.1 (by decide)⟩

/-- C10: the score depends only on the five indicator fields; records
agreeing on indicators A through E get the same score regardless of
every other field. -/
theorem score_noninterference (r1 r2 : Record)
    (hA : r1.a = r2.a) (hB : r1.b = r2.b) (hC : r1.c = r2.c)
    (hD : r1.d = r2.d) (hE : r1.e = r2.e) :
    calculate_score r1 = calculate_score r2 := by
  simp only [calculate_score, indValue, List.foldl]
  norm_num
  rw [hA, hB, hC, hD, hE]

/-- C10 witness: two records that differ in name, unit and birth date
but agree on the indicators score identically. -/
theorem score_noninterference_witness :
    calculate_score okBRec = calculate_score renamedOkBRec :=
  score_noninterference okBRec renamedOkBRec rfl rfl rfl rfl rfl

/-- C4: a sheet keeps its non-empty columns; with fewer than 15 of them
it is rejected outright, otherwise exactly the first 15 are kept and
named positionally; the loop over the workbook ingests exactly the
accepted sheets in order and emits one warning naming each rejected
sheet. -/
theorem sheet_column_gate (sheets : List Sheet) (s : Sheet) :
    ((keptCols s).length < 15 → processSheet s = none) ∧
    (15 ≤ (keptCols s).length →
      processSheet s =
        some (s.rows.map (fun r =>
          mkRecord (strip s.name) (projectRow ((keptCols s).take 15) r)))) ∧
    (processAll sheets).1 = sheets.filterMap processSheet ∧
    (processAll sheets).2 =
      (sheets.filter (fun t => (processSheet t).isNone)).map
        (fun t => Diag.sheetSkipped t.name) := by
  refine ⟨?_, ?_, processAll_fst sheets, processAll_snd sheets⟩
  · intro h
    rw [processSheet, if_neg (by omega)]
  · intro h
    rw [processSheet, if_pos h]

/-- C4 witness: the 10-column sheet is rejected, the full sheet kept. -/
theorem sheet_column_gate_witness :
    processSheet smallSheet = none ∧
    processSheet clinicSheet =
      some (clinicSheet.rows.map (fun r =>
        mkRecord (strip clinicSheet.name) (projectRow ((keptCols clinicSheet).take 15) r))) :=
  ⟨(sheet_column_gate [] smallSheet).1 (by decide),
   (sheet_column_gate [] clinicSheet).2.1 (by decide)⟩

/-- C5: the three fatal conditions, missing file, structural read
failure and zero-sheet workbook, each make load_data return the None
sentinel with the corresponding diagnostic and no rows at all. -/
theorem fatal_errors_abort_ingestion :
    load_data Source.missing = (none, [Diag.fileNotFound]) ∧
    load_data Source.readFailure = (none, [Diag.readError]) ∧
    load_data (Source.workbook []) = (none, [Diag.emptyWorkbook]) := by
  decide

/-- C8: every record of an accepted sheet carries the sheet name,
stripped of surrounding whitespace, as its unit. -/
theorem unit_tag_from_sheet_name (s : Sheet) (rs : List Record)
    (h : processSheet s = some rs) : ∀ r ∈ rs, r.unidade = strip s.name := by
  intro r hr
  rw [processSheet] at h
  split at h
  · injection h with h2
    subst h2
    obtain ⟨row, hrow, rfl⟩ := List.mem_map.mp hr
    rfl
  · cases h

/-- C8 witness: the sheet named Clinic A with padding whitespace yields
rows whose unit is the trimmed name. -/
theorem unit_tag_from_sheet_name_witness : clinicOut.unidade = "Clinic A" :=
  (unit_tag_from_sheet_name clinicSheet [clinicOut] (by decide) clinicOut
    (by decide)).trans (by decide)

/-- C3 counterexample: the workbook whose single row has Nome Maria and
an unparseable DN string still yields that row in the final dataset,
with a null birth date, because the required-field filter at
src/app.py line 69 runs before the coercion at line 70. -/
theorem unparseable_birthdate_retained_cex :
    (load_data (Source.workbook [mariaSheet])).1 = some [mariaOut] ∧
    mariaOut.nome = some (Value.str "Maria") ∧ mariaOut.dn = none := by
  decide

/-- C3 amended: the required-field filter checks only pre-parse nullity
of Nome and DN; every retained row has a non-null name, and a row whose
DN holds an unparseable string is retained with its DN nulled (and its
name untouched) rather than excluded. -/
theorem birthdate_parse_failure_row_retained (sheets : List Sheet)
    (rs : List Record) (ws : List Diag)
    (h : load_data (Source.workbook sheets) = (some rs, ws)) :
    rs = (((sheets.filterMap processSheet).flatten).filter requiredPresent).map coerceDN ∧
    (∀ r ∈ rs, r.nome.isSome = true) ∧
    (∀ (r : Record) (s : String), r.dn = some (Value.str s) →
      parseDateString s = none →
      (coerceDN r).dn = none ∧ (coerceDN r).nome = r.nome) := by
  have hchar := load_data_rows_char sheets rs ws h
  refine ⟨hchar, ?_, ?_⟩
  · intro r hr
    rw [hchar] at hr
    obtain ⟨r0, hr0, rfl⟩ := List.mem_map.mp hr
    have hreq := (List.mem_filter.mp hr0).2
    simp only [requiredPresent, Bool.and_eq_true] at hreq
    simpa [coerceDN] using hreq.1
  · intro r s hdn hps
    exact ⟨by simp [coerceDN, hdn, parseDN, hps], rfl⟩

/-- C3 amended witness: the Maria row is retained with name present and
birth date nulled. -/
theorem birthdate_parse_failure_row_retained_witness :
    mariaOut.nome.isSome = true ∧ (coerceDN (mkRecord "U" mariaRow)).dn = none :=
  ⟨(birthdate_parse_failure_row_retained [mariaSheet] [mariaOut] [] (by decide)).2.1
      mariaOut (by decide),
   ((birthdate_parse_failure_row_retained [mariaSheet] [mariaOut] [] (by decide)).2.2
      (mkRecord "U" mariaRow) "garbage" (by decide) (by decide)).1⟩

/-- C6: for a parsed workbook, load_data returns the None sentinel
exactly when no sheet was accepted, and a workbook whose accepted sheet
loses every row to the required-field filter gets the empty row list,
not the sentinel. -/
theorem no_accepted_sheet_sentinel (sheets : List Sheet) :
    ((load_data (Source.workbook sheets)).1 = none ↔
      sheets.filterMap processSheet = []) ∧
    (load_data (Source.workbook [filteredAllSheet])).1 = some [] := by
  constructor
  · constructor
    · intro h
      by_contra hfm
      have hw := congrArg Prod.fst (load_data_workbook_some sheets hfm)
      rw [h] at hw
      exact Option.noConfusion hw
    · intro hfm
      by_cases h1 : sheets.isEmpty
      · simp [load_data, h1]
      · have h2 : (processAll sheets).1.isEmpty = true := by
          rw [processAll_fst, hfm]
          rfl
        simp [load_data, h1, h2]
  · decide

/-- C6 witness: a workbook whose only sheet is rejected returns the
sentinel. -/
theorem no_accepted_sheet_sentinel_witness :
    (load_data (Source.workbook [smallSheet])).1 = none :=
  (no_accepted_sheet_sentinel [smallSheet]).1.mpr (by decide)

/-- C7: the conformity rate is the OK count over the non-null count
times 100 when the denominator is positive, and is defined as 0 when
the denominator is 0; over three records whose indicator B is null the
rate for B is 0. -/
theorem conformity_rate_defined (rs : List Record) (ind : String) :
    (totalCountIn rs ind = 0 → complianceRate rs ind = 0) ∧
    (0 < totalCountIn rs ind →
      complianceRate rs ind =
        (okCountIn rs ind : ℚ) / (totalCountIn rs ind : ℚ) * 100) ∧
    complianceRate threeNullB "B" = 0 ∧ threeNullB.length = 3 := by
  refine ⟨?_, ?_, by decide, by decide⟩
  · intro h
    rw [complianceRate, if_neg (by omega)]
  · intro h
    rw [complianceRate, if_pos h]

/-- C7 witness: the two denominator cases at concrete record sets. -/
theorem conformity_rate_defined_witness :
    complianceRate threeNullB "B" = 0 ∧
    complianceRate [okBRec] "B" =
      (okCountIn [okBRec] "B" : ℚ) / (totalCountIn [okBRec] "B" : ℚ) * 100 :=
  ⟨(conformity_rate_defined threeNullB "B").1 (by decide),
   (conformity_rate_defined [okBRec] "B").2.1 (by decide)⟩

/-- C9: load_data is a pure function of the parsed workbook, so two
invocations on the same input coincide, and when at least one sheet is
accepted the output is the sheet-order concatenation of the accepted
per-sheet record lists, filtered and coerced row by row in place, so
relative row order inside every sheet is preserved. -/
theorem ingestion_deterministic_ordered :
    (∀ src : Source, load_data src = load_data src) ∧
    (∀ sheets : List Sheet, sheets.filterMap processSheet ≠ [] →
      (load_data (Source.workbook sheets)).1 =
        some ((((sheets.filterMap processSheet).flatten).filter requiredPresent).map
          coerceDN)) :=
  ⟨fun _ => rfl,
   fun sheets h => congrArg Prod.fst (load_data_workbook_some sheets h)⟩

/-- C9 witness: the order characterization applied to a concrete
workbook. -/
theorem ingestion_deterministic_ordered_witness :
    (load_data (Source.workbook [mariaSheet])).1 =
      some (((([mariaSheet].filterMap processSheet).flatten).filter requiredPresent).map
        coerceDN) :=
  ingestion_deterministic_ordered.2 [mariaSheet] (by decide)
